import Mathlib

/-!
Verification of the AI-Report-Generator pipeline (src/src/agents, src/src/graph)
against its natural-language specification.  Python code is shallowly embedded:
dicts become association lists, `Optional` fields become `Option`, Python
truthiness is made explicit, and external-library calls (pandas statistics,
regex search, file existence, the JSON parser, the PDF renderer) are embedded
by their documented semantics or taken as explicit function parameters.
-/

namespace AIReport

/-! ### String utilities (Python `in`, `str.split(sep, 1)`, `str.strip`) -/

/-- Split a character list at the first occurrence of `sep` (Python
`hay.split(sep, 1)` when it finds a separator): returns the part before the
first occurrence and the part after it, or `none` when `sep` does not occur.
Not used with an empty `sep`. -/
def splitFirstOn (sep : List Char) : List Char → Option (List Char × List Char)
  | [] => none
  | c :: cs =>
    if sep.isPrefixOf (c :: cs) then some ([], (c :: cs).drop sep.length)
    else
      match splitFirstOn sep cs with
      | some (l, r) => some (c :: l, r)
      | none => none

/-- Python `needle in hay` for strings (substring containment). -/
def strContains (hay needle : String) : Bool :=
  (splitFirstOn needle.toList hay.toList).isSome

/-- Python `t.split(sep, 1)` restricted to the two-part result:
`some (before, after)` at the first occurrence of `sep`, else `none`. -/
def strSplitFirst (sep t : String) : Option (String × String) :=
  (splitFirstOn sep.toList t.toList).map (fun p => (p.1.asString, p.2.asString))

/-- Python `s.strip()`: remove leading and trailing whitespace. -/
def pyStrip (s : String) : String :=
  (((s.toList.dropWhile Char.isWhitespace).reverse.dropWhile Char.isWhitespace).reverse).asString

/-- Replace every (leftmost, non-overlapping) occurrence of `pat` by `rep`,
on character lists; the fuel argument (instantiated with the list length)
only makes the recursion structural and never runs out for nonempty `pat`. -/
def replaceChars (pat rep : List Char) : Nat → List Char → List Char
  | _, [] => []
  | 0, cs => cs
  | fuel + 1, c :: cs =>
    if ¬ pat.isEmpty ∧ pat.isPrefixOf (c :: cs) then
      rep ++ replaceChars pat rep fuel ((c :: cs).drop pat.length)
    else c :: replaceChars pat rep fuel cs

/-- Python `s.replace(pat, rep)` (all occurrences, left to right). -/
def pyReplace (s pat rep : String) : String :=
  (replaceChars pat.toList rep.toList s.toList.length s.toList).asString

/-- Python `s.startswith(p)`. -/
def strStartsWith (s p : String) : Bool :=
  p.toList.isPrefixOf s.toList

/-- Python `s.endswith(p)`. -/
def strEndsWith (s p : String) : Bool :=
  p.toList.isSuffixOf s.toList

/-- Python character slicing `s[n:]`. -/
def strDropLeft (s : String) (n : Nat) : String :=
  (s.toList.drop n).asString

/-- Python character slicing `s[:-n]`. -/
def strDropRight (s : String) (n : Nat) : String :=
  (s.toList.take (s.toList.length - n)).asString

/-- Python `s.lower()` (ASCII case folding suffices for dtype names). -/
def pyLower (s : String) : String :=
  (s.toList.map Char.toLower).asString

/-- Numeric value of a nonempty digit string (Python `int(s)` on the capture
of `\d+`). -/
def digitsToNat (s : String) : Nat :=
  s.toList.foldl (fun n c => 10 * n + (c.toNat - 48)) 0

/-! ### Data model.
The module `schemas/messages.py` is not present in the source tree (only its
importers are), so the record shapes below are modelled from the spec (section
3, "Shared Data Model"), constrained by how the nodes in `src/src/agents`
read and write their fields. -/

/-- Modelled from the spec: per-column detail record of a `DataProfile`
(`type`, `unique_values_count`, `missing_values_count`,
`missing_values_percentage`, and for numeric columns `mean`, `std`, `min`,
`max`, `quantiles`; for text columns `top_5_values`).  Numbers are embedded as
rationals (the Python floats involved in the claims are exactly
representable); the standard deviation, a square root, lives in `ℝ`. -/
structure ColumnDetail where
  type : String
  unique_values_count : Nat
  missing_values_count : Nat
  missing_values_percentage : String
  mean : Option ℚ := none
  std : Option ℝ := none
  min : Option ℚ := none
  max : Option ℚ := none
  quantiles : Option (Option ℚ × Option ℚ × Option ℚ) := none
  top_5_values : Option (List (String × Nat)) := none

/-- Modelled from the spec: the `DataProfile` record produced by the data
profiling stage (`num_rows`, `num_columns`, `column_details`,
`key_observations`). -/
structure DataProfile where
  num_rows : Nat
  num_columns : Nat
  column_details : List (String × ColumnDetail)
  key_observations : String

/-- Modelled from the spec: an LLM-authored analysis insight. -/
structure AnalysisInsight where
  insight_id : String
  title : String
  narrative : String
  suggested_section : Option String
  supporting_visual_ids : List String
deriving DecidableEq

/-- Modelled from the spec: a successfully rendered chart record. -/
structure GeneratedVisual where
  visual_id : String
  type : String
  description : String
  file_path : String
  suggested_section : String
  chart_code : String
deriving DecidableEq

/-- Modelled from the spec: the drafted report sections returned by the
drafting stage (`figure_id_map` maps placeholder tokens to visual ids; the
finalization node reads it through `... or {}`, hence `Option`). -/
structure ReportSectionsDraft where
  introduction_text : String
  analysis_narratives : List String
  key_takeaways_bullet_points : List String
  conclusion_text : String
  dataset_title : String
  figure_id_map : Option (List (String × String))
  clarification_questions : List String
deriving DecidableEq

/-- Modelled from the spec: the final report artifact. -/
structure ReportFormat where
  content : String
  format_type : String
  pdf_file_path : Option String
deriving DecidableEq

/-- The `GraphState` TypedDict of `src/src/graph/state.py`.  Fields read via
`state.get(...)` are plain `Option`s.  `error_message` is special: the
finalization node tests key presence with `'error_message' in state`, so it is
embedded two-level — `none` means the key is absent, `some none` means the key
is present holding Python `None`, `some (some m)` means it holds string `m`. -/
structure GraphState where
  request_id : String := ""
  file_path : Option String := none
  instructions : String := ""
  dataset_name : Option String := none
  dataframe_profile : Option DataProfile := none
  analysis_insights : Option (List AnalysisInsight) := none
  generated_visuals : Option (List GeneratedVisual) := none
  report_sections_draft : Option ReportSectionsDraft := none
  final_report : Option ReportFormat := none
  status : String := ""
  error_message : Option (Option String) := none
  safety_check_retries : Option Nat := none

/-! ### Python truthiness -/

/-- Python truthiness of an optional list field (`not x` is true both when the
key is absent/`None` and when the list is empty). -/
def pyTruthyList {α : Type} : Option (List α) → Bool
  | none => false
  | some l => !l.isEmpty

/-- Python truthiness of an optional record field (a present pydantic model is
always truthy). -/
def pyTruthyRecord {α : Type} : Option α → Bool
  | none => false
  | some _ => true

/-- Python truthiness of a string (`not s` is true exactly for the empty
string). -/
def pyTruthyStr (s : String) : Bool :=
  !(s == "")

/-! ### Orchestrator routing (`src/src/graph/builder.py`) -/

/-- A routing decision of a conditional edge: either the LangGraph `END`
sentinel or the name of the next node. -/
inductive Route where
  | END : Route
  | node : String → Route
deriving DecidableEq

/-- `check_analysis_validity` (builder.py lines 14-28): after `data_analysis`,
terminate when the profile is missing (`not profile`; a present pydantic model
is always truthy) or when `num_rows < 5` or `num_columns < 2`, else go to the
visualization node. -/
def check_analysis_validity (state : GraphState) : Route :=
  match state.dataframe_profile with
  | none => Route.END
  | some profile =>
    if profile.num_rows < 5 ∨ profile.num_columns < 2 then Route.END
    else Route.node "visualization"

/-- `check_safety_status` (builder.py lines 43-66).  The Python function
mutates the state dict and returns the route name; embedded as a pure function
returning the updated state together with the route.  `max_retries = 2`;
`current_retries = state.get("safety_check_retries", 0)`. -/
def check_safety_status (state : GraphState) : GraphState × Route :=
  let current_retries := state.safety_check_retries.getD 0
  if state.status = "error" then
    if current_retries < 2 then
      ({ state with
          safety_check_retries := some (current_retries + 1),
          status := "retrying",
          error_message := some (some "Safety check failed, attempting to redraft the report.") },
        Route.node "report_drafting")
    else
      ({ state with
          status := "error",
          error_message := some (some "Report generation failed after 2 attempts due to safety checks.") },
        Route.END)
  else (state, Route.node "report_finalization")

/-- The redraft loop after the safety check.  Starting from the state left by
a safety check, the router decides; whenever it routes back to
`report_drafting`, the drafting and safety nodes run again — neither of them
ever writes `safety_check_retries` (see `report_drafting_node.py` and
`safety_node.py`), which the theorems make explicit by quantifying over an
arbitrary retries-preserving transformation per iteration — and the loop
continues on the resulting state.  Returns the list of routing decisions
taken. -/
def safetyLoopTrace : GraphState → List (GraphState → GraphState) → List Route
  | s, [] => [(check_safety_status s).2]
  | s, f :: fs =>
    let out := check_safety_status s
    if out.2 = Route.node "report_drafting" then
      out.2 :: safetyLoopTrace (f out.1) fs
    else [out.2]

/-- Number of times a trace routes back to `report_drafting` (redraft count). -/
def countRedrafts (trace : List Route) : Nat :=
  (trace.filter (fun r => r = Route.node "report_drafting")).length

/-! ### Data analysis node (`src/src/agents/data_analysis_node.py`) -/

/-- The full fixed decline sentence the prompt instructs the model to return
(data_analysis_node.py lines 145 and 190-193). -/
def declinePhrase : String :=
  "I am a report generator AI and do not have information on that topic. Please give instructions related to data report generation."

/-- The shorter raw-substring probe used on the stripped LLM output
(data_analysis_node.py line 177). -/
def declineProbe : String :=
  "I am a report generator AI and do not have information on that topic"

/-- The pydantic model `DataFrameProfileOutput` the LLM reply is validated
against (data_analysis_node.py lines 21-27). -/
structure DataFrameProfileOutput where
  num_rows : Nat
  num_columns : Nat
  column_details : List (String × ColumnDetail)
  key_observations : String

/-- Lines 182-185 of `data_analysis_node`: strip a leading/trailing
triple-backtick-json fence from the stripped reply when present. -/
def stripJsonFence (stripped_str : String) : String :=
  if strStartsWith stripped_str "```json" ∧ strEndsWith stripped_str "```" then
    pyStrip (strDropRight (strDropLeft stripped_str 7) 3)
  else stripped_str

/-- Lines 176-206 of `data_analysis_node`: handling of a received LLM reply.
`profile_data` is the locally computed profile (its `key_observations` still
empty), `raw` the reply text, and `parse` embeds
`json.loads` + `DataFrameProfileOutput.parse_obj` (an external parser:
`Except.error e` is a raised `json.JSONDecodeError` handled at lines
220-225). -/
def handle_llm_profile_response (state : GraphState) (profile_data : DataProfile)
    (raw : String) (parse : String → Except String DataFrameProfileOutput) :
    GraphState :=
  let stripped_str := pyStrip raw
  if strContains stripped_str declineProbe then
    { state with
        status := "error",
        error_message := some (some "User instructions were not related to data report generation.") }
  else
    match parse (stripJsonFence stripped_str) with
    | Except.error e =>
      { state with
          status := "error",
          error_message := some (some ("LLM output was invalid JSON or malformed. Validation Error: " ++ e)) }
    | Except.ok parsed_profile_output =>
      if pyStrip parsed_profile_output.key_observations = declinePhrase then
        { state with
            status := "invalid_instructions",
            error_message := some (some parsed_profile_output.key_observations) }
      else
        { state with
            dataframe_profile := some { profile_data with
              key_observations := parsed_profile_output.key_observations },
            status := "data_profiled" }

/-! ### Numeric column statistics (data_analysis_node.py lines 83-126).
A column is a list of cells, `none` being a missing value (NaN).  The pandas
calls (`mean`, `std`, `min`, `max`, `quantile`, `nunique`, `isnull`) are
embedded by their documented semantics: all of them skip missing values,
`std` uses the ddof = 1 (Bessel-corrected sample) divisor and is NaN — hence
absent — when fewer than two values remain, and `quantile` interpolates
linearly. -/

/-- The non-missing cells of a column (pandas skipna behaviour). -/
def nonNull (xs : List (Option ℚ)) : List ℚ :=
  xs.filterMap id

/-- `df[col].mean()`: arithmetic mean of the non-missing cells, NaN (`none`)
when there are none. -/
def colMean (xs : List (Option ℚ)) : Option ℚ :=
  let v := nonNull xs
  if v.length = 0 then none else some (v.sum / v.length)

/-- The square of `df[col].std()`: sample variance with divisor `n - 1`
(pandas default `ddof=1`), NaN (`none`) when fewer than two values remain. -/
def sampleVar (xs : List (Option ℚ)) : Option ℚ :=
  let v := nonNull xs
  if v.length ≤ 1 then none
  else
    let m := v.sum / v.length
    some (((v.map (fun x => (x - m) ^ 2)).sum) / (v.length - 1 : ℕ))

/-- `df[col].std()`: the square root of the ddof = 1 sample variance. -/
noncomputable def colStd (xs : List (Option ℚ)) : Option ℝ :=
  (sampleVar xs).map (fun q => Real.sqrt (q : ℝ))

/-- Modelled from the spec: the "population-style standard deviation" the spec
attributes to the profiling stage — the square root of the variance with
divisor `n` (ddof = 0), absent when no values remain.  This is the comparison
definition for claim C7; the source computation is `colStd`. -/
noncomputable def popStdSpec (xs : List (Option ℚ)) : Option ℝ :=
  let v := nonNull xs
  if v.length = 0 then none
  else
    let m := v.sum / v.length
    some (Real.sqrt ((((v.map (fun x => (x - m) ^ 2)).sum) / (v.length : ℕ) : ℚ) : ℝ))

/-- `df[col].min()` with skipna: `none` when every cell is missing. -/
def colMin (xs : List (Option ℚ)) : Option ℚ :=
  (nonNull xs).min?

/-- `df[col].max()` with skipna: `none` when every cell is missing. -/
def colMax (xs : List (Option ℚ)) : Option ℚ :=
  (nonNull xs).max?

/-- `df[col].quantile(q)` with pandas' default linear interpolation on the
sorted non-missing values: position `h = (n-1)·q`, result
`v⌊h⌋ + (h - ⌊h⌋)·(v⌊h⌋₊₁ - v⌊h⌋)`; `none` when no values remain. -/
def quantileLinear (xs : List (Option ℚ)) (q : ℚ) : Option ℚ :=
  let v := (nonNull xs).insertionSort (· ≤ ·)
  if v.length = 0 then none
  else
    let pos : ℚ := (v.length - 1 : ℕ) * q
    let i : ℕ := ⌊pos⌋.toNat
    let lo := v.getD i 0
    let hi := v.getD (Nat.min (i + 1) (v.length - 1)) 0
    some (lo + (pos - i) * (hi - lo))

/-- Round a rational to the nearest integer, ties to even (the rounding of
Python's fixed-point `format`). -/
def roundHalfEven (q : ℚ) : ℤ :=
  let f := ⌊q⌋
  let r := q - f
  if r < 1 / 2 then f
  else if r > 1 / 2 then f + 1
  else if f % 2 = 0 then f else f + 1

/-- Python `f"{x:.2f}"` for a non-negative rational: two fixed decimal
places. -/
def formatTwoDec (q : ℚ) : String :=
  let c := roundHalfEven (q * 100)
  let i := c / 100
  let fr := c % 100
  toString i ++ "." ++ (if fr < 10 then "0" else "") ++ toString fr

/-- Lines 84-119 of `data_analysis_node`: the per-column detail record built
for a numeric column (`col_type` is `str(df[col].dtype)`; the int/float
distinction drawn at lines 107 and 113 does not change the numeric value and
is not reflected in the `ℚ` embedding). -/
noncomputable def numeric_column_detail (col_type : String) (xs : List (Option ℚ)) :
    ColumnDetail :=
  let n := xs.length
  let missing := (xs.filter Option.isNone).length
  { type := col_type
    unique_values_count := (nonNull xs).dedup.length
    missing_values_count := missing
    missing_values_percentage := formatTwoDec ((missing : ℚ) / (n : ℚ) * 100) ++ "%"
    mean := colMean xs
    std := colStd xs
    min := colMin xs
    max := colMax xs
    quantiles := some (quantileLinear xs (1 / 4), quantileLinear xs (1 / 2), quantileLinear xs (3 / 4))
    top_5_values := none }

/-! ### Input guards of the downstream nodes.
Each node body begins with a prerequisite check before any LLM work; the
guards are embedded as functions returning `some updatedState` when the node
returns early at the guard (or, for the safety node, skips) and `none` when
execution would continue into the LLM call (which is outside the model). -/

/-- `insight_generation_node` lines 28-36: abort with `error` when the profile
or the visuals list is falsy (absent, `None`, or an empty list). -/
def insight_generation_guard (state : GraphState) : Option GraphState :=
  if ¬ pyTruthyRecord state.dataframe_profile ∨ ¬ pyTruthyList state.generated_visuals then
    some { state with
        status := "error",
        error_message := some (some "Cannot generate insights: Missing data profile or generated visuals.") }
  else none

/-- `report_drafting_node` lines 30-39: abort with `error` when the profile,
the insights list, or the visuals list is falsy (absent, `None`, or an empty
list). -/
def report_drafting_guard (state : GraphState) : Option GraphState :=
  if ¬ pyTruthyRecord state.dataframe_profile ∨ ¬ pyTruthyList state.analysis_insights ∨
      ¬ pyTruthyList state.generated_visuals then
    some { state with
        status := "error",
        error_message := some (some "Cannot draft report: Missing data profile, insights, or visuals.") }
  else none

/-- `safety_check_node` lines 37-43: when the draft, the profile, or the
instructions are falsy, log and return the state unmodified (a soft no-op). -/
def safety_check_guard (state : GraphState) : Option GraphState :=
  if ¬ pyTruthyRecord state.report_sections_draft ∨ ¬ pyTruthyRecord state.dataframe_profile ∨
      ¬ pyTruthyStr state.instructions then
    some state
  else none

/-- `report_finalization_node` lines 30-46: abort with `error` when the draft
is falsy. -/
def report_finalization_guard (state : GraphState) : Option GraphState :=
  if ¬ pyTruthyRecord state.report_sections_draft then
    some { state with
        status := "error",
        error_message := some (some "Cannot finalize report: Report sections draft is missing.") }
  else none

/-! ### Visualization node (`src/src/agents/visualization_node.py`) -/

/-- The pandas dtypes occurring in this pipeline's tables. -/
inductive PandasDtype where
  | int64 : PandasDtype
  | float64 : PandasDtype
  | boolCol : PandasDtype
  | objectCol : PandasDtype
  | datetime64 : PandasDtype
deriving DecidableEq

/-- `str(dtype)`, the pandas dtype name (an object column's dtype name is
always the literal "object"). -/
def dtypeName : PandasDtype → String
  | PandasDtype.int64 => "int64"
  | PandasDtype.float64 => "float64"
  | PandasDtype.boolCol => "bool"
  | PandasDtype.objectCol => "object"
  | PandasDtype.datetime64 => "datetime64[ns]"

/-- `pd.api.types.is_numeric_dtype`: true for integer, float and bool dtypes,
false for object and datetime dtypes. -/
def is_numeric_dtype : PandasDtype → Bool
  | PandasDtype.int64 => true
  | PandasDtype.float64 => true
  | PandasDtype.boolCol => true
  | PandasDtype.objectCol => false
  | PandasDtype.datetime64 => false

/-- `pd.api.types.is_object_dtype`. -/
def is_object_dtype : PandasDtype → Bool
  | PandasDtype.objectCol => true
  | _ => false

/-- A dataframe column: name, dtype, and cells (`none` = missing).  Cell
payloads are embedded as rationals; for object/datetime columns the payload is
an encoding of the underlying value, which the chart logic only sorts and
null-filters. -/
structure DFColumn where
  name : String
  dtype : PandasDtype
  values : List (Option ℚ)
deriving DecidableEq

/-- A dataframe is its list of columns (cells aligned by row index). -/
structure DataFrame where
  columns : List DFColumn

/-- `col in df.columns` / `df[col]`. -/
def findCol (df : DataFrame) (c : String) : Option DFColumn :=
  df.columns.find? (fun col => col.name == c)

/-- Modelled from the spec: the LLM-authored `VisualGenerationInstruction`. -/
structure VisualGenerationInstruction where
  type : String
  columns : List String
  title : Option String
  description : String
  suggested_section : Option String

/-- The rows used by the 2-column line branch after
`sort_values(by=x_col).dropna(subset=[x_col, y_col])`: pairs with both cells
present, sorted ascending (stably) by the x value.  Sorting and null-dropping
commute here because the stable sort keeps relative order and `sort_values`
places missing keys last. -/
def lineCleanRows (xs ys : List (Option ℚ)) : List (ℚ × ℚ) :=
  ((xs.zip ys).filterMap (fun p =>
      match p with
      | (some a, some b) => some (a, b)
      | _ => none)).insertionSort (fun a b => a.1 ≤ b.1)

/-- `generate_chart` (visualization_node.py lines 29-143), embedded as the
decision structure returning the `chart_code_str` of a successfully saved
chart, or `none` on any rejection.  The seaborn/matplotlib rendering and
`savefig` side effects are outside the model and taken to succeed; a thrown
rendering exception would also yield `none` (lines 140-143).  `toDatetime`
embeds the elementwise `pd.to_datetime(..., errors='coerce')` used in the
line branch's date path. -/
def generate_chart (toDatetime : Option ℚ → Option ℚ) (df : DataFrame)
    (instruction : VisualGenerationInstruction) : Option String :=
  if instruction.columns.isEmpty ∨
      ¬ instruction.columns.all (fun c => (findCol df c).isSome) then
    none
  else if (instruction.type = "histogram" ∨ instruction.type = "boxplot" ∨
        instruction.type = "line" ∨ instruction.type = "scatter") ∧
      instruction.columns.any (fun c =>
        match findCol df c with
        | some col => ¬ is_numeric_dtype col.dtype
        | none => false) then
    none
  else if instruction.type = "bar" then
    match instruction.columns with
    | [x_col, y_col] =>
      some ("sns.barplot(x='" ++ x_col ++ "', y='" ++ y_col ++ "', data=df, ax=ax)")
    | [c] => some ("sns.countplot(x='" ++ c ++ "', data=df, ax=ax)")
    | _ => none
  else if instruction.type = "line" then
    match instruction.columns with
    | [x_col, y_col] =>
      match findCol df x_col, findCol df y_col with
      | some xc, some yc =>
        let df_sorted :=
          if is_object_dtype xc.dtype ∧
              (strContains (pyLower (dtypeName xc.dtype)) "date" ∨
                strContains (pyLower (dtypeName xc.dtype)) "time") then
            lineCleanRows (xc.values.map toDatetime) yc.values
          else
            lineCleanRows xc.values yc.values
        if df_sorted.isEmpty then none
        else
          some ("df_sorted = df.sort_values(by='" ++ x_col ++
            "')\nsns.lineplot(x='" ++ x_col ++ "', y='" ++ y_col ++ "', data=df_sorted, ax=ax)")
      | _, _ => none
    | _ => none
  else if instruction.type = "scatter" then
    match instruction.columns with
    | [x_col, y_col] =>
      some ("sns.scatterplot(x='" ++ x_col ++ "', y='" ++ y_col ++ "', data=df, ax=ax)")
    | _ => none
  else if instruction.type = "histogram" then
    match instruction.columns with
    | [c] => some ("sns.histplot(df['" ++ c ++ "'], kde=True, ax=ax)")
    | _ => none
  else if instruction.type = "boxplot" then
    match instruction.columns with
    | [c] => some ("sns.boxplot(y=df['" ++ c ++ "'], ax=ax)")
    | [x_col, y_col] =>
      some ("sns.boxplot(x='" ++ x_col ++ "', y='" ++ y_col ++ "', data=df, ax=ax)")
    | _ => none
  else none

/-! ### Report finalization node (`src/src/agents/report_finalization_node.py`) -/

/-- Try to match the regex `\[FIGURE (\d+)\]` at the head of the character
list; on success return the captured digit string and the remainder after the
match. -/
def matchFigureAt (cs : List Char) : Option (String × List Char) :=
  match splitFirstOn "[FIGURE ".toList cs with
  | some ([], rest) =>
    let digits := rest.takeWhile Char.isDigit
    let rest' := rest.dropWhile Char.isDigit
    if digits.isEmpty then none
    else
      match rest' with
      | ']' :: after => some (digits.asString, after)
      | _ => none
  | _ => none

/-- `re.findall(r'\[FIGURE (\d+)\]', narrative)`: all captured digit strings,
left to right.  Matches of this pattern contain no later `[`, so scanning one
character at a time finds exactly the matches `re.findall` finds. -/
def findFigurePlaceholders : List Char → List String
  | [] => []
  | c :: cs =>
    match matchFigureAt (c :: cs) with
    | some (d, _) => d :: findFigurePlaceholders cs
    | none => findFigurePlaceholders cs

/-- `sorted(list(set(findall(...))), key=int)` (line 69): the distinct
captured digit strings in ascending numeric order.  Python's `set` iteration
order is unspecified, so any deduplication is a faithful pre-sort order. -/
def uniqueFigureNumbers (narrative : String) : List String :=
  (findFigurePlaceholders narrative.toList).dedup.insertionSort
    (fun a b => digitsToNat a ≤ digitsToNat b)

/-- `visuals_by_id` (line 63): dict lookup by `visual_id`; a later duplicate
id would overwrite an earlier one, hence the reversed search. -/
def visualsById (generated_visuals : List GeneratedVisual) (vid : String) :
    Option GeneratedVisual :=
  generated_visuals.reverse.find? (fun v => v.visual_id == vid)

/-- The loop body for one figure number (lines 71-100), acting on the
accumulator (current narrative text, embeds collected so far).  `fileExists`
embeds `os.path.exists`; `abspath` embeds `os.path.abspath` with the path
separator already normalized to `/`. -/
def figureStep (figure_id_map : List (String × String))
    (generated_visuals : List GeneratedVisual)
    (fileExists : String → Bool) (abspath : String → String)
    (acc : String × List String) (fig_num_str : String) : String × List String :=
  let ph := "[FIGURE " ++ fig_num_str ++ "]"
  match (figure_id_map.find? (fun p => p.1 == ph)).map Prod.snd with
  | some visual_id_from_map =>
    match visualsById generated_visuals visual_id_from_map with
    | some visual_obj =>
      if fileExists visual_obj.file_path then
        (pyReplace acc.1 ph ("Figure " ++ fig_num_str),
          acc.2 ++
            ["\n![" ++ visual_obj.description ++ "](file:///" ++ abspath visual_obj.file_path ++ ")\n",
              "**Figure " ++ fig_num_str ++ ":** " ++ visual_obj.description ++ "\n"])
      else
        (pyReplace acc.1 ph ("*(Visual for " ++ ph ++ " missing)*"), acc.2)
    | none =>
      (pyReplace acc.1 ph ("*(Visual for " ++ ph ++ " missing)*"), acc.2)
  | none =>
    (pyReplace acc.1 ph ("*(Visual for " ++ ph ++ " not mapped)*"), acc.2)

/-- Lines 64-100 for one narrative: substitute every distinct placeholder in
ascending numeric order and collect the embed lines appended below the
narrative. -/
def processNarrativeFigures (figure_id_map : List (String × String))
    (generated_visuals : List GeneratedVisual)
    (fileExists : String → Bool) (abspath : String → String)
    (narrative : String) : String × List String :=
  (uniqueFigureNumbers narrative).foldl
    (figureStep figure_id_map generated_visuals fileExists abspath)
    (narrative, [])

/-- Lines 101-107: split the substituted narrative on the first `":-"` into a
trimmed heading and a trimmed body; an empty (falsy) narrative yields the
default heading "Finding" with an empty body. -/
def splitNarrativeHeading (current_narrative_text : String) : String × String :=
  if pyTruthyStr current_narrative_text then
    match strSplitFirst ":-" current_narrative_text with
    | some (l, r) => (pyStrip l, pyStrip r)
    | none => (pyStrip current_narrative_text, "")
  else ("Finding", "")

/-- The PDF exception handler, lines 176-185.  `'error_message' in state`
is a key-presence test; when the key holds `None`, the `+=` on `None` raises a
`TypeError`, returned as `Except.error` (it propagates to the stage's outer
handler). -/
def pdf_failure_update (state : GraphState) (e : String) :
    Except String GraphState :=
  match state.error_message with
  | some (some m) =>
    Except.ok { state with error_message := some (some (m ++ "\nError generating PDF: " ++ e)) }
  | some none =>
    Except.error "unsupported operand type(s) for +=: 'NoneType' and 'str'"
  | none =>
    Except.ok { state with error_message := some (some ("Error generating PDF: " ++ e)) }

/-- Lines 145-202 of `report_finalization_node`, entered after the Markdown
file was written successfully: attempt the PDF render (`pdfRender` embeds
`HTML(...).write_pdf`, with `Except.error e` a thrown exception), then build
the final report record; any exception escaping the PDF handler is caught by
the stage's outermost handler (lines 197-202), which sets `status` to
"error". -/
def finalize_after_markdown (state : GraphState) (full_report_string_md : String)
    (report_pdf_file_path : String) (pdfRender : Except String Unit) : GraphState :=
  match pdfRender with
  | Except.ok _ =>
    { state with
        final_report := some
          { content := full_report_string_md, format_type := "markdown",
            pdf_file_path := some report_pdf_file_path },
        status := "report_finalized" }
  | Except.error e =>
    match pdf_failure_update state e with
    | Except.ok state' =>
      { state' with
          final_report := some
            { content := full_report_string_md, format_type := "markdown",
              pdf_file_path := none },
          status := "report_finalized" }
    | Except.error te =>
      { state with
          status := "error",
          error_message := some (some ("An unexpected error occurred during report finalization: " ++ te)) }

/-! ### Workflow execution (`create_graph_workflow`, builder.py lines 69-120).
Node behaviour is embedded at guard level: `stepNode` returns `none` exactly
when the node would proceed past its input guard into LLM work, which is
outside the model; the runner then stops and reports that it did not finish.
State updates made by the routing function are threaded onward, as the code
assumes. -/

/-- One node invocation at guard level. -/
def stepNode (name : String) (state : GraphState) : Option GraphState :=
  if name = "insight_generation" then insight_generation_guard state
  else if name = "report_drafting" then report_drafting_guard state
  else if name = "safety_check" then safety_check_guard state
  else if name = "report_finalization" then report_finalization_guard state
  else none

/-- The edge out of a node (builder.py lines 87-116): unconditional edges
`visualization → insight_generation → report_drafting → safety_check` and
`report_finalization → END`, and the conditional edge after `safety_check`
given by `check_safety_status`. -/
def nextEdge (name : String) (state : GraphState) : GraphState × Route :=
  if name = "visualization" then (state, Route.node "insight_generation")
  else if name = "insight_generation" then (state, Route.node "report_drafting")
  else if name = "report_drafting" then (state, Route.node "safety_check")
  else if name = "safety_check" then check_safety_status state
  else (state, Route.END)

/-- Run the workflow from a node: returns the list of node names invoked, the
final state, and whether the run reached `END` within the model (`false` when
it stopped at an unmodelled LLM call or ran out of fuel). -/
def runNodes : Nat → String → GraphState → List String × GraphState × Bool
  | 0, _, s => ([], s, false)
  | fuel + 1, name, s =>
    match stepNode name s with
    | none => ([name], s, false)
    | some s' =>
      match nextEdge name s' with
      | (s'', Route.END) => ([name], s'', true)
      | (s'', Route.node next) =>
        let rest := runNodes fuel next s''
        (name :: rest.1, rest.2.1, rest.2.2)

/-! ## Theorems -/

/-- Splitting `countRedrafts` over the head of a trace. -/
theorem countRedrafts_cons_drafting (t : List Route) :
    countRedrafts (Route.node "report_drafting" :: t) = 1 + countRedrafts t := by
  simp [countRedrafts, List.filter]
  omega

/-- The redraft loop performs at most `2 - retries` redrafts when the
interleaved drafting/safety executions never touch the retry counter. -/
theorem safetyLoop_bound (fs : List (GraphState → GraphState)) :
    ∀ s : GraphState,
      (∀ f ∈ fs, ∀ t, (f t).safety_check_retries = t.safety_check_retries) →
      countRedrafts (safetyLoopTrace s fs) ≤ 2 - s.safety_check_retries.getD 0 := by
  induction fs with
  | nil =>
    intro s _
    by_cases herr : s.status = "error"
    · by_cases hlt : s.safety_check_retries.getD 0 < 2
      · simp [safetyLoopTrace, check_safety_status, herr, hlt, countRedrafts, List.filter]
        omega
      · simp [safetyLoopTrace, check_safety_status, herr, hlt, countRedrafts, List.filter]
    · simp [safetyLoopTrace, check_safety_status, herr, countRedrafts, List.filter]
  | cons f fs ih =>
    intro s hf
    by_cases herr : s.status = "error"
    · by_cases hlt : s.safety_check_retries.getD 0 < 2
      · have hstep :
            safetyLoopTrace s (f :: fs) =
              Route.node "report_drafting" ::
                safetyLoopTrace (f (check_safety_status s).1) fs := by
          simp [safetyLoopTrace, check_safety_status, herr, hlt]
        rw [hstep, countRedrafts_cons_drafting]
        have hretr : (f (check_safety_status s).1).safety_check_retries =
            some (s.safety_check_retries.getD 0 + 1) := by
          rw [hf f (List.mem_cons_self f fs)]
          simp [check_safety_status, herr, hlt]
        have := ih (f (check_safety_status s).1)
          (fun g hg t => hf g (List.mem_cons_of_mem f hg) t)
        rw [hretr] at this
        simp only [Option.getD_some] at this
        omega
      · simp [safetyLoopTrace, check_safety_status, herr, hlt, countRedrafts, List.filter]
    · simp [safetyLoopTrace, check_safety_status, herr, countRedrafts, List.filter]

/-- C2: after the safety check, a state with `status == "error"` and fewer
than 2 recorded retries is routed back to `report_drafting` with the retry
counter incremented and `status` set to "retrying"; a state with
`status == "error"` and an exhausted budget gets the final error message
citing the retry count and the `END` route; any other status is routed to
`report_finalization`.  Consequently, when drafting and safety never write
the retry counter, a loop started with 0 retries redrafts at most 2 times. -/
theorem safety_check_routing_and_retry_bound :
    (∀ s : GraphState, s.status = "error" → s.safety_check_retries.getD 0 < 2 →
      check_safety_status s =
        ({ s with
            safety_check_retries := some (s.safety_check_retries.getD 0 + 1),
            status := "retrying",
            error_message := some (some "Safety check failed, attempting to redraft the report.") },
          Route.node "report_drafting")) ∧
    (∀ s : GraphState, s.status = "error" → ¬ s.safety_check_retries.getD 0 < 2 →
      check_safety_status s =
        ({ s with
            status := "error",
            error_message := some (some "Report generation failed after 2 attempts due to safety checks.") },
          Route.END)) ∧
    (∀ s : GraphState, s.status ≠ "error" →
      check_safety_status s = (s, Route.node "report_finalization")) ∧
    (∀ (s : GraphState) (fs : List (GraphState → GraphState)),
      (∀ f ∈ fs, ∀ t, (f t).safety_check_retries = t.safety_check_retries) →
      s.safety_check_retries.getD 0 = 0 →
      countRedrafts (safetyLoopTrace s fs) ≤ 2) := by
  refine ⟨?_, ?_, ?_, ?_⟩
  · intro s herr hlt
    simp [check_safety_status, herr, hlt]
  · intro s herr hlt
    simp [check_safety_status, herr, hlt]
  · intro s herr
    simp [check_safety_status, herr]
  · intro s fs hf h0
    have := safetyLoop_bound fs s hf
    rw [h0] at this
    simpa using this

/-- Witness for C2 at concrete inputs: an error state with 0 retries is
re-routed to drafting with the counter at 1; one with 2 retries terminates
with the budget-citing message; a "safety_checked" state goes to
finalization; a loop over three failing safety outcomes redrafts twice. -/
theorem safety_check_routing_and_retry_bound_witness :
    (check_safety_status { status := "error", safety_check_retries := some 0 }).2 =
        Route.node "report_drafting" ∧
    (check_safety_status { status := "error", safety_check_retries := some 0 }).1.status =
        "retrying" ∧
    (check_safety_status { status := "error", safety_check_retries := some 0 }).1.safety_check_retries =
        some 1 ∧
    (check_safety_status { status := "error", safety_check_retries := some 2 }).2 = Route.END ∧
    (check_safety_status { status := "safety_checked" }).2 =
        Route.node "report_finalization" ∧
    countRedrafts (safetyLoopTrace { status := "error", safety_check_retries := some 0 }
      [fun t => { t with status := "error" }, fun t => { t with status := "error" }]) ≤ 2 := by
  obtain ⟨h1, h2, h3, h4⟩ := safety_check_routing_and_retry_bound
  refine ⟨?_, ?_, ?_, ?_, ?_, ?_⟩
  · rw [h1 { status := "error", safety_check_retries := some 0 } rfl (by decide)]
  · rw [h1 { status := "error", safety_check_retries := some 0 } rfl (by decide)]
  · rw [h1 { status := "error", safety_check_retries := some 0 } rfl (by decide)]
    rfl
  · rw [h2 { status := "error", safety_check_retries := some 2 } rfl (by decide)]
  · rw [h3 { status := "safety_checked" } (by decide)]
  · refine h4 _ _ ?_ rfl
    intro f hf t
    simp only [List.mem_cons, List.not_mem_nil, or_false] at hf
    rcases hf with h | h <;> subst h <;> rfl

/-- C3: after the data analysis stage the orchestrator routes to `END` (so no
further stage runs) if and only if the profile is absent, or has fewer than 5
rows, or fewer than 2 columns; in every other case it routes to the
visualization node. -/
theorem analysis_validity_routing (s : GraphState) :
    (check_analysis_validity s = Route.END ↔
      s.dataframe_profile = none ∨
        ∃ p, s.dataframe_profile = some p ∧ (p.num_rows < 5 ∨ p.num_columns < 2)) ∧
    (check_analysis_validity s ≠ Route.END →
      check_analysis_validity s = Route.node "visualization") := by
  constructor
  · cases hp : s.dataframe_profile with
    | none => simp [check_analysis_validity, hp]
    | some p =>
      by_cases hsm : p.num_rows < 5 ∨ p.num_columns < 2 <;>
        simp [check_analysis_validity, hp, hsm]
  · intro hne
    cases hp : s.dataframe_profile with
    | none => simp [check_analysis_validity, hp] at hne ⊢
    | some p =>
      by_cases hsm : p.num_rows < 5 ∨ p.num_columns < 2
      · rw [check_analysis_validity, hp] at hne
        simp [hsm] at hne
      · simp [check_analysis_validity, hp, hsm]

/-- Witness for C3 at concrete inputs: a 2-row profile terminates the
workflow, a 5-row 2-column profile routes to visualization. -/
theorem analysis_validity_routing_witness :
    check_analysis_validity
        { dataframe_profile := some ⟨2, 3, [], ""⟩ } = Route.END ∧
    check_analysis_validity
        { dataframe_profile := some ⟨5, 2, [], ""⟩ } =
      Route.node "visualization" := by
  constructor
  · exact (analysis_validity_routing _).1.mpr
      (Or.inr ⟨_, rfl, Or.inl (by decide)⟩)
  · exact (analysis_validity_routing _).2 (by decide)

/-- C4 counterexample: in a state where all three prerequisites are present —
`analysis_insights` being the empty list, `generated_visuals` nonempty — the
drafting stage DOES take the abort branch (Python `not []` is true), with
status "error" and the exact missing-prerequisites message, refuting the
claim that a present-but-empty list avoids the abort. -/
theorem report_drafting_empty_list_aborts :
    (report_drafting_guard
        { dataframe_profile := some ⟨5, 2, [], "obs"⟩,
          analysis_insights := some [],
          generated_visuals := some [⟨"chart_r_1", "bar", "d", "p.png", "Analysis", "code"⟩] }).isSome =
      true ∧
    (report_drafting_guard
        { dataframe_profile := some ⟨5, 2, [], "obs"⟩,
          analysis_insights := some [],
          generated_visuals := some [⟨"chart_r_1", "bar", "d", "p.png", "Analysis", "code"⟩] }).map
        GraphState.status = some "error" ∧
    (report_drafting_guard
        { dataframe_profile := some ⟨5, 2, [], "obs"⟩,
          analysis_insights := some [],
          generated_visuals := some [⟨"chart_r_1", "bar", "d", "p.png", "Analysis", "code"⟩] }).map
        GraphState.error_message =
      some (some (some "Cannot draft report: Missing data profile, insights, or visuals.")) := by
  exact ⟨rfl, rfl, rfl⟩

/-- C4 (amended): the drafting stage aborts with status "error" and the exact
message "Cannot draft report: Missing data profile, insights, or visuals."
exactly when the profile is absent or the insights or visuals list is absent
OR EMPTY (an empty list is falsy in Python and triggers the abort); it
proceeds past the guard exactly when the profile is present and both lists
are present and nonempty. -/
theorem report_drafting_abort_characterization (s : GraphState) :
    (report_drafting_guard s =
        some { s with
                status := "error",
                error_message := some (some "Cannot draft report: Missing data profile, insights, or visuals.") } ↔
      s.dataframe_profile = none ∨
        s.analysis_insights = none ∨ s.analysis_insights = some [] ∨
        s.generated_visuals = none ∨ s.generated_visuals = some []) ∧
    (report_drafting_guard s = none ↔
      s.dataframe_profile ≠ none ∧
        (∃ i rest, s.analysis_insights = some (i :: rest)) ∧
        (∃ v rest, s.generated_visuals = some (v :: rest))) := by
  rcases s with ⟨rid, fp, ins, dn, prof, ai, gv, rsd, fr, st, em, scr⟩
  rcases prof with _ | p <;>
    rcases ai with _ | (_ | ⟨i, irest⟩) <;>
    rcases gv with _ | (_ | ⟨v, vrest⟩) <;>
    simp [report_drafting_guard, pyTruthyRecord, pyTruthyList]

/-- C1 counterexample: an LLM reply that is exactly the decline phrase —
hence contains it as a raw substring — is given status "error" (not
"invalid_instructions") and the error message "User instructions were not
related to data report generation." (not the decline sentence), refuting the
claim that the raw-substring branch produces `invalid_instructions` with the
exact decline message. -/
theorem decline_raw_substring_gets_error_status :
    (handle_llm_profile_response {} ⟨0, 0, [], ""⟩ declinePhrase
        (fun j => Except.error j)).status = "error" ∧
    (handle_llm_profile_response {} ⟨0, 0, [], ""⟩ declinePhrase
        (fun j => Except.error j)).status ≠ "invalid_instructions" ∧
    (handle_llm_profile_response {} ⟨0, 0, [], ""⟩ declinePhrase
        (fun j => Except.error j)).error_message =
      some (some "User instructions were not related to data report generation.") ∧
    (handle_llm_profile_response {} ⟨0, 0, [], ""⟩ declinePhrase
        (fun j => Except.error j)).error_message ≠ some (some declinePhrase) ∧
    strContains declinePhrase declineProbe = true := by
  refine ⟨by decide, by decide, by decide, by decide, by decide⟩

/-- C1 (amended): a reply whose stripped text contains the decline probe as a
raw substring is routed to status "error" with the message "User instructions
were not related to data report generation."; only a reply without that raw
substring whose parsed `key_observations` equals the decline phrase exactly
after trimming yields status "invalid_instructions" with that exact message
as `error_message`.  In both cases `dataframe_profile` stays unchanged, so no
DataProfile is produced. -/
theorem decline_handling_characterization (s : GraphState)
    (profile_data : DataProfile) (raw : String)
    (parse : String → Except String DataFrameProfileOutput) :
    (strContains (pyStrip raw) declineProbe = true →
      handle_llm_profile_response s profile_data raw parse =
        { s with
            status := "error",
            error_message := some (some "User instructions were not related to data report generation.") }) ∧
    (strContains (pyStrip raw) declineProbe = false →
      ∀ out, parse (stripJsonFence (pyStrip raw)) = Except.ok out →
        pyStrip out.key_observations = declinePhrase →
        handle_llm_profile_response s profile_data raw parse =
          { s with
              status := "invalid_instructions",
              error_message := some (some out.key_observations) }) := by
  constructor
  · intro hc
    simp [handle_llm_profile_response, hc]
  · intro hc out hparse hkey
    simp [handle_llm_profile_response, hc, hparse, hkey]

/-- Witness for C1 (amended) at concrete inputs: a reply containing the probe
gets status "error"; a probe-free reply parsed with `key_observations` equal
to the decline phrase gets status "invalid_instructions". -/
theorem decline_handling_characterization_witness :
    (handle_llm_profile_response {} ⟨0, 0, [], ""⟩ ("  " ++ declineProbe)
        (fun j => Except.error j)).status = "error" ∧
    (handle_llm_profile_response {} ⟨0, 0, [], ""⟩ "unrelated"
        (fun _ => Except.ok ⟨0, 0, [], declinePhrase⟩)).status =
      "invalid_instructions" := by
  constructor
  · rw [(decline_handling_characterization {} ⟨0, 0, [], ""⟩ ("  " ++ declineProbe)
      (fun j => Except.error j)).1 (by decide)]
  · rw [(decline_handling_characterization {} ⟨0, 0, [], ""⟩ "unrelated"
      (fun _ => Except.ok ⟨0, 0, [], declinePhrase⟩)).2 (by decide)
      ⟨0, 0, [], declinePhrase⟩ rfl (by decide)]

/-- A successful first-occurrence split reassembles to the input. -/
theorem splitFirstOn_append (sep : List Char) :
    ∀ cs l r : List Char, splitFirstOn sep cs = some (l, r) → cs = l ++ sep ++ r := by
  intro cs
  induction cs with
  | nil => intro l r h; simp [splitFirstOn] at h
  | cons c cs ih =>
    intro l r h
    rw [splitFirstOn] at h
    by_cases hp : sep.isPrefixOf (c :: cs)
    · rw [if_pos hp] at h
      obtain ⟨t, ht⟩ := (List.isPrefixOf_iff_prefix.mp hp)
      injection h with h1
      injection h1 with hl hr
      subst hl
      subst hr
      rw [← ht]
      simp [← ht, List.drop_left]
    · rw [if_neg hp] at h
      cases hin : splitFirstOn sep cs with
      | none => rw [hin] at h; exact absurd h (by simp)
      | some p =>
        rw [hin] at h
        obtain ⟨l', r'⟩ := p
        injection h with h1
        injection h1 with hl hr
        subst hl
        subst hr
        have := ih l' r' hin
        simp [this]

/-- The left part of a first-occurrence split contains no occurrence of the
(nonempty) separator: the split really is at the first occurrence. -/
theorem splitFirstOn_left_free (sep : List Char) (hsep : sep ≠ []) :
    ∀ cs l r : List Char, splitFirstOn sep cs = some (l, r) →
      splitFirstOn sep l = none := by
  intro cs
  induction cs with
  | nil => intro l r h; simp [splitFirstOn] at h
  | cons c cs ih =>
    intro l r h
    rw [splitFirstOn] at h
    by_cases hp : sep.isPrefixOf (c :: cs)
    · rw [if_pos hp] at h
      injection h with h1
      injection h1 with hl _
      subst hl
      cases sep with
      | nil => exact absurd rfl hsep
      | cons a as => simp [splitFirstOn]
    · rw [if_neg hp] at h
      cases hin : splitFirstOn sep cs with
      | none => rw [hin] at h; exact absurd h (by simp)
      | some p =>
        rw [hin] at h
        obtain ⟨l', r'⟩ := p
        injection h with h1
        injection h1 with hl hr
        subst hl
        subst hr
        have hfree : splitFirstOn sep l' = none := ih l' r' hin
        have hcs : cs = l' ++ sep ++ r' := splitFirstOn_append sep cs l' r' hin
        rw [splitFirstOn]
        have hnp : ¬ sep.isPrefixOf (c :: l') := by
          intro hpre
          apply hp
          rw [List.isPrefixOf_iff_prefix] at hpre ⊢
          calc sep <+: c :: l' := hpre
            _ <+: (c :: l') ++ (sep ++ r') := List.prefix_append _ _
            _ = c :: cs := by simp [hcs]
        rw [if_neg hnp, hfree]

/-- C9 counterexample: a nonempty narrative without the separator keeps its
own (trimmed) text as the heading — it does not default to "Finding" as the
claim states for the separator-absent case. -/
theorem narrative_without_separator_keeps_text :
    splitNarrativeHeading "Overall sales grew strongly" =
      ("Overall sales grew strongly", "") ∧
    strContains "Overall sales grew strongly" ":-" = false ∧
    ("Overall sales grew strongly" : String) ≠ "Finding" := by
  exact ⟨by decide, by decide, by decide⟩

/-- C9 (amended): a narrative is split on the FIRST occurrence of the literal
separator ":-" into a trimmed heading and a trimmed body; when the separator
is absent the body is empty and the heading is the whole narrative trimmed;
the heading defaults to "Finding" (with empty body) exactly when the
narrative is empty. -/
theorem narrative_heading_split_characterization (t : String) :
    (t = "" → splitNarrativeHeading t = ("Finding", "")) ∧
    (t ≠ "" → strContains t ":-" = false →
      splitNarrativeHeading t = (pyStrip t, "")) ∧
    (t ≠ "" → strContains t ":-" = true →
      ∃ a b : String, t = a ++ ":-" ++ b ∧ strContains a ":-" = false ∧
        splitNarrativeHeading t = (pyStrip a, pyStrip b)) := by
  refine ⟨?_, ?_, ?_⟩
  · intro h; subst h; rfl
  · intro hne hv
    have hnone : splitFirstOn [':', '-'] t.data = none := by
      cases ho : splitFirstOn ":-".toList t.toList with
      | none => exact ho
      | some p =>
        unfold strContains at hv
        rw [ho] at hv
        simp at hv
    have hbeq : (t == "") = false := by
      cases hb : t == "" with
      | false => rfl
      | true => exact absurd (by simpa using hb) hne
    simp [splitNarrativeHeading, pyTruthyStr, hbeq, strSplitFirst, hnone]
  · intro hne hv
    unfold strContains at hv
    rw [Option.isSome_iff_exists] at hv
    obtain ⟨⟨l, r⟩, hsplit⟩ := hv
    refine ⟨l.asString, r.asString, ?_, ?_, ?_⟩
    · have := splitFirstOn_append _ _ _ _ hsplit
      apply String.ext
      simpa using this
    · have hfree := splitFirstOn_left_free _ (by decide) _ _ _ hsplit
      unfold strContains
      rw [show splitFirstOn ":-".toList l.asString.toList = none from hfree]
      rfl
    · have hbeq : (t == "") = false := by
        cases hb : t == "" with
        | false => rfl
        | true => exact absurd (by simpa using hb) hne
      have hsplit2 : splitFirstOn [':', '-'] t.data = some (l, r) := hsplit
      simp [splitNarrativeHeading, pyTruthyStr, hbeq, strSplitFirst, hsplit2]

/-- Witness for C9 (amended) at concrete inputs: the empty narrative gets the
default heading, a separator-free narrative keeps its text, and a
separated narrative is split and trimmed. -/
theorem narrative_heading_split_witness :
    splitNarrativeHeading "" = ("Finding", "") ∧
    splitNarrativeHeading "no separator here" = ("no separator here", "") ∧
    (∃ a b : String, "Trend:- sales rise" = a ++ ":-" ++ b ∧
      strContains a ":-" = false ∧
      splitNarrativeHeading "Trend:- sales rise" = (pyStrip a, pyStrip b)) := by
  refine ⟨?_, ?_, ?_⟩
  · exact (narrative_heading_split_characterization "").1 rfl
  · exact (narrative_heading_split_characterization "no separator here").2.1
      (by decide) (by decide)
  · exact (narrative_heading_split_characterization "Trend:- sales rise").2.2
      (by decide) (by decide)

/-- C5: for every narrative, finalization processes the distinct
`[FIGURE N]` tokens in ascending numeric order (the processed list is sorted
by numeric value and duplicate-free), and each step behaves by cases: a
placeholder mapped to an existing visual whose file exists has every
occurrence replaced by "Figure N" with an image embed (absolute `file:///`
URL) and a caption line appended below the narrative; a mapped placeholder
whose visual or file is absent is replaced by the missing-visual marker with
nothing appended; an unmapped placeholder is replaced by the not-mapped
marker. -/
theorem figure_placeholder_resolution (figmap : List (String × String))
    (vs : List GeneratedVisual) (fe : String → Bool) (ap : String → String)
    (narrative : String) :
    (processNarrativeFigures figmap vs fe ap narrative =
      (uniqueFigureNumbers narrative).foldl (figureStep figmap vs fe ap)
        (narrative, [])) ∧
    List.Sorted (fun a b => digitsToNat a ≤ digitsToNat b)
      (uniqueFigureNumbers narrative) ∧
    (uniqueFigureNumbers narrative).Nodup ∧
    (∀ (acc : String × List String) (n vid : String) (v : GeneratedVisual),
      (figmap.find? (fun p => p.1 == "[FIGURE " ++ n ++ "]")).map Prod.snd = some vid →
      visualsById vs vid = some v →
      fe v.file_path = true →
      figureStep figmap vs fe ap acc n =
        (pyReplace acc.1 ("[FIGURE " ++ n ++ "]") ("Figure " ++ n),
          acc.2 ++
            ["\n![" ++ v.description ++ "](file:///" ++ ap v.file_path ++ ")\n",
              "**Figure " ++ n ++ ":** " ++ v.description ++ "\n"])) ∧
    (∀ (acc : String × List String) (n vid : String),
      (figmap.find? (fun p => p.1 == "[FIGURE " ++ n ++ "]")).map Prod.snd = some vid →
      (visualsById vs vid = none ∨
        ∃ v, visualsById vs vid = some v ∧ fe v.file_path = false) →
      figureStep figmap vs fe ap acc n =
        (pyReplace acc.1 ("[FIGURE " ++ n ++ "]")
          ("*(Visual for " ++ ("[FIGURE " ++ n ++ "]") ++ " missing)*"), acc.2)) ∧
    (∀ (acc : String × List String) (n : String),
      figmap.find? (fun p => p.1 == "[FIGURE " ++ n ++ "]") = none →
      figureStep figmap vs fe ap acc n =
        (pyReplace acc.1 ("[FIGURE " ++ n ++ "]")
          ("*(Visual for " ++ ("[FIGURE " ++ n ++ "]") ++ " not mapped)*"), acc.2)) := by
  refine ⟨rfl, ?_, ?_, ?_, ?_, ?_⟩
  · haveI ht : IsTotal String (fun a b => digitsToNat a ≤ digitsToNat b) :=
      ⟨fun a b => Nat.le_total _ _⟩
    haveI htr : IsTrans String (fun a b => digitsToNat a ≤ digitsToNat b) :=
      ⟨fun _ _ _ hab hbc => Nat.le_trans hab hbc⟩
    exact List.sorted_insertionSort _ _
  · exact ((List.perm_insertionSort _ _).nodup_iff).mpr (List.nodup_dedup _)
  · intro acc n vid v hmap hvis hfe
    simp [figureStep, hmap, hvis, hfe]
  · intro acc n vid hmap hbad
    rcases hbad with hnone | ⟨v, hvis, hfe⟩
    · simp [figureStep, hmap, hnone]
    · simp [figureStep, hmap, hvis, hfe]
  · intro acc n hmap
    simp [figureStep, hmap]

/-- Witness for C5 at concrete inputs: one mapped-and-present figure, one
mapped figure with a missing file, one unmapped figure. -/
theorem figure_placeholder_resolution_witness :
    figureStep [("[FIGURE 1]", "v1")]
        [⟨"v1", "bar", "sales by region", "f1.png", "Analysis", "c"⟩]
        (fun p => p == "f1.png") (fun p => "/tmp/" ++ p)
        ("See [FIGURE 1].", []) "1" =
      ("See Figure 1.",
        ["\n![sales by region](file:////tmp/f1.png)\n",
          "**Figure 1:** sales by region\n"]) ∧
    figureStep [("[FIGURE 1]", "v1")]
        [⟨"v1", "bar", "sales by region", "f1.png", "Analysis", "c"⟩]
        (fun _ => false) (fun p => "/tmp/" ++ p)
        ("See [FIGURE 1].", []) "1" =
      ("See *(Visual for [FIGURE 1] missing)*.", []) ∧
    figureStep [] [] (fun _ => true) (fun p => p)
        ("See [FIGURE 2].", []) "2" =
      ("See *(Visual for [FIGURE 2] not mapped)*.", []) := by
  obtain ⟨-, -, -, h1, h2, h3⟩ :=
    figure_placeholder_resolution [("[FIGURE 1]", "v1")]
      [⟨"v1", "bar", "sales by region", "f1.png", "Analysis", "c"⟩]
      (fun p => p == "f1.png") (fun p => "/tmp/" ++ p) ""
  obtain ⟨-, -, -, -, h2b, -⟩ :=
    figure_placeholder_resolution [("[FIGURE 1]", "v1")]
      [⟨"v1", "bar", "sales by region", "f1.png", "Analysis", "c"⟩]
      (fun _ => false) (fun p => "/tmp/" ++ p) ""
  obtain ⟨-, -, -, -, -, h3b⟩ :=
    figure_placeholder_resolution [] [] (fun _ => true) (fun p => p) ""
  refine ⟨?_, ?_, ?_⟩
  · rw [h1 ("See [FIGURE 1].", []) "1" "v1"
      ⟨"v1", "bar", "sales by region", "f1.png", "Analysis", "c"⟩
      (by decide) (by decide) (by decide)]
    decide
  · rw [h2b ("See [FIGURE 1].", []) "1" "v1" (by decide)
      (Or.inr ⟨⟨"v1", "bar", "sales by region", "f1.png", "Analysis", "c"⟩,
        by decide, rfl⟩)]
    decide
  · rw [h3b ("See [FIGURE 2].", []) "2" (by decide)]
    decide

/-- C6: evaluation of the finalization tail at the failing input.  When the
`error_message` key is present holding `None` — exactly how the front end
initializes the state — and PDF rendering throws, the `+=` in the handler
raises a TypeError, the outer handler runs, and the stage ends with status
"error" and NO final report, contradicting the documented non-fatal
behaviour; with the key absent (as in the repo's own tests) the stage does
complete with "report_finalized", the Markdown content populated,
`pdf_file_path` absent, and the PDF failure recorded in `error_message`. -/
theorem pdf_failure_with_none_error_message_is_fatal :
    (finalize_after_markdown { status := "report_drafted", error_message := some none }
        "# Report" "r.pdf" (Except.error "PDF generation failed")).status = "error" ∧
    (finalize_after_markdown { status := "report_drafted", error_message := some none }
        "# Report" "r.pdf" (Except.error "PDF generation failed")).final_report = none ∧
    (finalize_after_markdown { status := "report_drafted" }
        "# Report" "r.pdf" (Except.error "PDF generation failed")).status =
      "report_finalized" ∧
    (finalize_after_markdown { status := "report_drafted" }
        "# Report" "r.pdf" (Except.error "PDF generation failed")).final_report =
      some { content := "# Report", format_type := "markdown", pdf_file_path := none } ∧
    (finalize_after_markdown { status := "report_drafted" }
        "# Report" "r.pdf" (Except.error "PDF generation failed")).error_message =
      some (some "Error generating PDF: PDF generation failed") := by
  exact ⟨rfl, rfl, rfl, rfl, rfl⟩

/-- All-missing columns have no surviving cells. -/
theorem nonNull_eq_nil_of_all_none (xs : List (Option ℚ)) (h : ∀ x ∈ xs, x = none) :
    nonNull xs = [] := by
  induction xs with
  | nil => rfl
  | cons x xs ih =>
    have hx := h x (List.mem_cons_self x xs)
    subst hx
    simpa [nonNull] using ih (fun y hy => h y (List.mem_cons_of_mem _ hy))

/-- C7 counterexample: on the two-value column `[0, 2]` the profiling stage
records `std = √2` — the Bessel-corrected (ddof = 1) sample standard
deviation pandas computes — whereas the population-style standard deviation
asserted by the claim is `1`; the two disagree. -/
theorem recorded_std_not_population_style :
    (numeric_column_detail "float64" [some 0, some 2]).std = some (Real.sqrt 2) ∧
    popStdSpec [some 0, some 2] = some 1 ∧
    (numeric_column_detail "float64" [some 0, some 2]).std ≠
      popStdSpec [some 0, some 2] := by
  have hs : sampleVar [some 0, some 2] = some 2 := by
    simp [sampleVar, nonNull]
    norm_num
  have h1 : (numeric_column_detail "float64" [some 0, some 2]).std =
      some (Real.sqrt 2) := by
    show colStd [some 0, some 2] = some (Real.sqrt 2)
    rw [colStd, hs]
    norm_num
  have h2 : popStdSpec [some 0, some 2] = some 1 := by
    rw [popStdSpec]
    simp [nonNull]
    norm_num
  refine ⟨h1, h2, ?_⟩
  rw [h1, h2]
  intro hcontra
  have : Real.sqrt 2 = 1 := by injection hcontra
  have h2eq : (2 : ℝ) = 1 := by
    have := Real.sqrt_eq_one.mp this
    exact this
  norm_num at h2eq

/-- C7 (amended): for a numeric column the profiling stage records the mean,
the SAMPLE (ddof = 1) standard deviation, the min, the max (each absent when
undefined because the column is all-missing) and the three quartiles; on the
column `[100.5, 200.0, 150.25, 300.75]` the recorded mean is `187.875`, min
`100.5`, max `300.75`, and `missing_values_percentage` is `"0.00%"`. -/
theorem numeric_profile_statistics :
    (numeric_column_detail "float64"
        [some (201 / 2 : ℚ), some 200, some (601 / 4), some (1203 / 4)]).mean =
      some (1503 / 8) ∧
    (numeric_column_detail "float64"
        [some (201 / 2 : ℚ), some 200, some (601 / 4), some (1203 / 4)]).min =
      some (201 / 2) ∧
    (numeric_column_detail "float64"
        [some (201 / 2 : ℚ), some 200, some (601 / 4), some (1203 / 4)]).max =
      some (1203 / 4) ∧
    (numeric_column_detail "float64"
        [some (201 / 2 : ℚ), some 200, some (601 / 4), some (1203 / 4)]).missing_values_percentage =
      "0.00%" ∧
    (numeric_column_detail "float64"
        [some (201 / 2 : ℚ), some 200, some (601 / 4), some (1203 / 4)]).quantiles.isSome =
      true ∧
    (∀ (t : String) (xs : List (Option ℚ)),
      (numeric_column_detail t xs).std = (sampleVar xs).map (fun q => Real.sqrt (q : ℝ))) ∧
    (∀ (t : String) (xs : List (Option ℚ)), (∀ x ∈ xs, x = none) →
      (numeric_column_detail t xs).mean = none ∧
        (numeric_column_detail t xs).min = none ∧
        (numeric_column_detail t xs).max = none ∧
        (numeric_column_detail t xs).std = none) := by
  refine ⟨?_, ?_, ?_, ?_, rfl, fun t xs => rfl, ?_⟩
  · show colMean [some (201 / 2 : ℚ), some 200, some (601 / 4), some (1203 / 4)] =
      some (1503 / 8)
    simp [colMean, nonNull]
    norm_num
  · show colMin [some (201 / 2 : ℚ), some 200, some (601 / 4), some (1203 / 4)] =
      some (201 / 2)
    simp [colMin, nonNull, List.min?]
    norm_num [min_def]
  · show colMax [some (201 / 2 : ℚ), some 200, some (601 / 4), some (1203 / 4)] =
      some (1203 / 4)
    simp [colMax, nonNull, List.max?]
    norm_num [max_def]
  · show formatTwoDec ((((([some (201 / 2 : ℚ), some 200, some (601 / 4), some (1203 / 4)].filter
        Option.isNone).length : ℚ)) / 4) * 100) ++ "%" = "0.00%"
    norm_num [formatTwoDec, roundHalfEven]
    rfl
  · intro t xs hall
    have hnil := nonNull_eq_nil_of_all_none xs hall
    refine ⟨?_, ?_, ?_, ?_⟩
    · show colMean xs = none
      simp [colMean, hnil]
    · show colMin xs = none
      simp [colMin, hnil]
    · show colMax xs = none
      simp [colMax, hnil]
    · show colStd xs = none
      simp [colStd, sampleVar, hnil]

/-- Witness for C7 (amended) at a concrete input: an all-missing two-cell
column records no mean, min, max or std. -/
theorem numeric_profile_statistics_witness :
    (numeric_column_detail "float64" [none, none]).mean = none ∧
    (numeric_column_detail "float64" [none, none]).min = none ∧
    (numeric_column_detail "float64" [none, none]).max = none ∧
    (numeric_column_detail "float64" [none, none]).std = none := by
  have h := numeric_profile_statistics.2.2.2.2.2.2 "float64" [none, none] (by decide)
  exact h

/-- Numeric dtypes are never object dtypes. -/
theorem is_object_eq_false_of_numeric (d : PandasDtype)
    (h : is_numeric_dtype d = true) : is_object_dtype d = false := by
  cases d <;> simp_all [is_numeric_dtype, is_object_dtype]

/-- C8 counterexample: a 2-column line suggestion whose x-column is date-like
(dtype "datetime64[ns]", whose name contains "date") over nonempty, null-free
data is REJECTED by the numeric-column precondition — `generate_chart`
returns no chart — contradicting the claim that such a chart is parsed,
sorted and plotted. -/
theorem date_line_chart_is_rejected :
    generate_chart id
        ⟨[⟨"date", PandasDtype.datetime64, [some 1, some 2, some 3]⟩,
          ⟨"sales", PandasDtype.int64, [some 10, some 20, some 30]⟩]⟩
        ⟨"line", ["date", "sales"], some "Sales Over Time",
          "Line chart of sales over time", some "Sales Analysis"⟩ = none ∧
    strContains (pyLower (dtypeName PandasDtype.datetime64)) "date" = true ∧
    lineCleanRows [some 1, some 2, some 3] [some 10, some 20, some 30] ≠ [] := by
  exact ⟨by decide, by decide, by decide⟩

/-- C8 (amended): for a line suggestion with exactly 2 present columns, any
non-numeric column — in particular a date/time dtype — makes the renderer
reject before the line branch; when both columns are numeric, the renderer
drops rows with nulls in either column, sorts by the x-column, and rejects
exactly when no rows remain.  The date-parsing path is unreachable: no dtype
is simultaneously an object dtype and named like a date/time. -/
theorem line_chart_numeric_precondition (toDT : Option ℚ → Option ℚ)
    (df : DataFrame) (ins : VisualGenerationInstruction) (x_col y_col : String)
    (xc yc : DFColumn) (htype : ins.type = "line")
    (hcols : ins.columns = [x_col, y_col]) (hx : findCol df x_col = some xc)
    (hy : findCol df y_col = some yc) :
    (¬ (is_numeric_dtype xc.dtype = true ∧ is_numeric_dtype yc.dtype = true) →
      generate_chart toDT df ins = none) ∧
    (is_numeric_dtype xc.dtype = true → is_numeric_dtype yc.dtype = true →
      (generate_chart toDT df ins = none ↔
        lineCleanRows xc.values yc.values = [])) ∧
    (∀ d : PandasDtype, is_object_dtype d = true →
      strContains (pyLower (dtypeName d)) "date" = false ∧
        strContains (pyLower (dtypeName d)) "time" = false) := by
  refine ⟨?_, ?_, ?_⟩
  · intro hnn
    have hxy : is_numeric_dtype xc.dtype = false ∨ is_numeric_dtype yc.dtype = false := by
      rcases Bool.eq_false_or_eq_true (is_numeric_dtype xc.dtype) with h | h
      · rcases Bool.eq_false_or_eq_true (is_numeric_dtype yc.dtype) with h' | h'
        · exact absurd ⟨h, h'⟩ hnn
        · exact Or.inr h'
      · exact Or.inl h
    rcases hxy with h | h <;>
      simp [generate_chart, htype, hcols, hx, hy, h]
  · intro hnx hny
    have hox := is_object_eq_false_of_numeric xc.dtype hnx
    simp [generate_chart, htype, hcols, hx, hy, hnx, hny, hox,
      List.isEmpty_iff]
  · intro d hd
    cases d <;> simp [is_object_dtype] at hd ⊢
    exact ⟨by decide, by decide⟩

/-- Witness for C8 (amended) at concrete inputs: an object-dtype y-column is
rejected; two numeric columns with one complete row render a chart; the
object dtype is not date/time-named. -/
theorem line_chart_numeric_precondition_witness :
    generate_chart id
        ⟨[⟨"t", PandasDtype.float64, [some 2, some 1]⟩,
          ⟨"region", PandasDtype.objectCol, [some 5, some 6]⟩]⟩
        ⟨"line", ["t", "region"], none, "d", none⟩ = none ∧
    (generate_chart id
        ⟨[⟨"t", PandasDtype.float64, [some 2, some 1]⟩,
          ⟨"v", PandasDtype.int64, [some 5, none]⟩]⟩
        ⟨"line", ["t", "v"], none, "d", none⟩).isSome = true ∧
    strContains (pyLower (dtypeName PandasDtype.objectCol)) "date" = false := by
  refine ⟨?_, ?_, ?_⟩
  · exact (line_chart_numeric_precondition id
      ⟨[⟨"t", PandasDtype.float64, [some 2, some 1]⟩,
        ⟨"region", PandasDtype.objectCol, [some 5, some 6]⟩]⟩
      ⟨"line", ["t", "region"], none, "d", none⟩ "t" "region"
      ⟨"t", PandasDtype.float64, [some 2, some 1]⟩
      ⟨"region", PandasDtype.objectCol, [some 5, some 6]⟩
      rfl rfl (by decide) (by decide)).1 (by decide)
  · have h := (line_chart_numeric_precondition id
      ⟨[⟨"t", PandasDtype.float64, [some 2, some 1]⟩,
        ⟨"v", PandasDtype.int64, [some 5, none]⟩]⟩
      ⟨"line", ["t", "v"], none, "d", none⟩ "t" "v"
      ⟨"t", PandasDtype.float64, [some 2, some 1]⟩
      ⟨"v", PandasDtype.int64, [some 5, none]⟩
      rfl rfl (by decide) (by decide)).2.1 (by decide) (by decide)
    have hne : lineCleanRows [some (2 : ℚ), some 1] [some (5 : ℚ), none] ≠ [] := by
      decide
    rcases ho : generate_chart id
        ⟨[⟨"t", PandasDtype.float64, [some 2, some 1]⟩,
          ⟨"v", PandasDtype.int64, [some 5, none]⟩]⟩
        ⟨"line", ["t", "v"], none, "d", none⟩ with _ | c
    · exact absurd (h.mp ho) hne
    · rfl
  · exact ((line_chart_numeric_precondition id
      ⟨[⟨"t", PandasDtype.float64, [some 2, some 1]⟩,
        ⟨"region", PandasDtype.objectCol, [some 5, some 6]⟩]⟩
      ⟨"line", ["t", "region"], none, "d", none⟩ "t" "region"
      ⟨"t", PandasDtype.float64, [some 2, some 1]⟩
      ⟨"region", PandasDtype.objectCol, [some 5, some 6]⟩
      rfl rfl (by decide) (by decide)).2.2 PandasDtype.objectCol rfl).1

/-- One unfolding step of the workflow runner. -/
theorem runNodes_succ (fuel : Nat) (name : String) (s : GraphState) :
    runNodes (fuel + 1) name s =
      match stepNode name s with
      | none => ([name], s, false)
      | some s' =>
        match nextEdge name s' with
        | (s'', Route.END) => ([name], s'', true)
        | (s'', Route.node next) =>
          ((name :: (runNodes fuel next s'').1, (runNodes fuel next s'').2.1,
            (runNodes fuel next s'').2.2)) := by
  rfl

/-- C10 counterexample: starting the workflow at the insight stage on a state
produced by a visualization stage in which every chart render failed
(`generated_visuals = []`), the report drafting and safety check stages ARE
invoked (the unconditional graph edges run them; each aborts or no-ops) —
refuting the claim that such a run can never reach them. -/
theorem empty_visuals_run_still_invokes_drafting :
    (runNodes 20 "insight_generation"
        { request_id := "r", instructions := "make a report",
          dataframe_profile := some ⟨10, 3, [], "obs"⟩,
          generated_visuals := some [],
          status := "visuals_generated",
          safety_check_retries := some 0 }).1 =
      ["insight_generation", "report_drafting", "safety_check", "report_drafting",
        "safety_check", "report_drafting", "safety_check"] ∧
    "report_drafting" ∈ (runNodes 20 "insight_generation"
        { request_id := "r", instructions := "make a report",
          dataframe_profile := some ⟨10, 3, [], "obs"⟩,
          generated_visuals := some [],
          status := "visuals_generated",
          safety_check_retries := some 0 }).1 ∧
    "safety_check" ∈ (runNodes 20 "insight_generation"
        { request_id := "r", instructions := "make a report",
          dataframe_profile := some ⟨10, 3, [], "obs"⟩,
          generated_visuals := some [],
          status := "visuals_generated",
          safety_check_retries := some 0 }).1 := by
  exact ⟨by decide, by decide, by decide⟩

/-- C10 (amended): in every state whose `generated_visuals` is the empty list
(the visualization stage's success outcome when every render fails), with no
draft yet and a fresh retry counter, the insight stage immediately errors
with exactly "Cannot generate insights: Missing data profile or generated
visuals."; the workflow then still invokes drafting (which aborts) and the
safety check (which no-ops) through the retry loop, terminates with status
"error", and never invokes report finalization. -/
theorem empty_visuals_insight_error_and_no_finalization (s : GraphState)
    (hvis : s.generated_visuals = some [])
    (hdraft : s.report_sections_draft = none)
    (hret : s.safety_check_retries = some 0) :
    insight_generation_guard s =
      some { s with
              status := "error",
              error_message := some (some "Cannot generate insights: Missing data profile or generated visuals.") } ∧
    (runNodes 20 "insight_generation" s).1 =
      ["insight_generation", "report_drafting", "safety_check", "report_drafting",
        "safety_check", "report_drafting", "safety_check"] ∧
    "report_finalization" ∉ (runNodes 20 "insight_generation" s).1 ∧
    (runNodes 20 "insight_generation" s).2.1.status = "error" ∧
    (runNodes 20 "insight_generation" s).2.2 = true := by
  have hguard : insight_generation_guard s =
      some { s with
              status := "error",
              error_message := some (some "Cannot generate insights: Missing data profile or generated visuals.") } := by
    simp [insight_generation_guard, pyTruthyList, hvis]
  have hrun : runNodes 20 "insight_generation" s =
      (["insight_generation", "report_drafting", "safety_check", "report_drafting",
          "safety_check", "report_drafting", "safety_check"],
        { s with
            status := "error",
            error_message := some (some "Report generation failed after 2 attempts due to safety checks."),
            safety_check_retries := some 2 },
        true) := by
    rw [show (20 : Nat) = 19 + 1 from rfl, runNodes_succ]
    simp [stepNode, nextEdge, hguard]
    rw [show (19 : Nat) = 18 + 1 from rfl, runNodes_succ]
    simp [stepNode, nextEdge, report_drafting_guard, safety_check_guard,
      check_safety_status, pyTruthyList, pyTruthyRecord, pyTruthyStr,
      hvis, hdraft, hret]
    rw [show (18 : Nat) = 17 + 1 from rfl, runNodes_succ]
    simp [stepNode, nextEdge, report_drafting_guard, safety_check_guard,
      check_safety_status, pyTruthyList, pyTruthyRecord, pyTruthyStr,
      hvis, hdraft, hret]
    rw [show (17 : Nat) = 16 + 1 from rfl, runNodes_succ]
    simp [stepNode, nextEdge, report_drafting_guard, safety_check_guard,
      check_safety_status, pyTruthyList, pyTruthyRecord, pyTruthyStr,
      hvis, hdraft, hret]
    rw [show (16 : Nat) = 15 + 1 from rfl, runNodes_succ]
    simp [stepNode, nextEdge, report_drafting_guard, safety_check_guard,
      check_safety_status, pyTruthyList, pyTruthyRecord, pyTruthyStr,
      hvis, hdraft, hret]
    rw [show (15 : Nat) = 14 + 1 from rfl, runNodes_succ]
    simp [stepNode, nextEdge, report_drafting_guard, safety_check_guard,
      check_safety_status, pyTruthyList, pyTruthyRecord, pyTruthyStr,
      hvis, hdraft, hret]
    rw [show (14 : Nat) = 13 + 1 from rfl, runNodes_succ]
    simp [stepNode, nextEdge, report_drafting_guard, safety_check_guard,
      check_safety_status, pyTruthyList, pyTruthyRecord, pyTruthyStr,
      hvis, hdraft, hret]
  exact ⟨hguard, by rw [hrun], by rw [hrun]; simp, by rw [hrun], by rw [hrun]⟩

/-- Witness for C10 (amended) at a concrete input. -/
theorem empty_visuals_insight_error_witness :
    (insight_generation_guard
        { request_id := "w", generated_visuals := some [],
          safety_check_retries := some 0 }).isSome = true ∧
    "report_finalization" ∉ (runNodes 20 "insight_generation"
        { request_id := "w", generated_visuals := some [],
          safety_check_retries := some 0 }).1 := by
  have h := empty_visuals_insight_error_and_no_finalization
    { request_id := "w", generated_visuals := some [], safety_check_retries := some 0 }
    rfl rfl rfl
  exact ⟨by rw [h.1]; rfl, h.2.2.1⟩

end AIReport
